import Mathlib

/-!
Verification of the StablePay-ETF wallet-authentication and role-resolution
layer.  The TypeScript sources under src/lib/auth-service.ts, src/lib/db.ts
(the IndexedDB wrapper bundled with src/stores/useEmployeeStore.ts),
src/app/actions/employee-registration.ts and src/middleware.ts are embedded
shallowly: external effects (the wallet provider RPC surface, the signer, the
ethers address normalizer) are supplied as explicit environment fields, and
IndexedDB is state passed explicitly as association lists keyed by wallet
address.  Fallible operations return Except with the message strings of the
source.
-/

namespace StablePay

/-! ## Data model (src/lib/db.ts: StablePayDB schema) -/

inductive UserRole
  | employer
  | employee
deriving DecidableEq, Repr

inductive EmpStatus
  | Active
  | Inactive
deriving DecidableEq, Repr

/-- A record of the employers object store (key path: address). -/
structure EmployerRecord where
  address : String
  name : Option String
  registrationDate : Nat
  lastLogin : Option Nat
deriving DecidableEq, Repr

/-- A record of the employees object store (key path: address). -/
structure EmployeeRecord where
  address : String
  name : String
  employerAddress : String
  amount : String
  schedule : String
  registrationDate : Nat
  lastPaid : Option Nat
  status : EmpStatus
deriving DecidableEq, Repr

/-- The two object stores the authentication layer touches.  IndexedDB keys
are unique; the wrapper only ever inserts via add, which rejects duplicate
keys, so lookups by key are well defined on all reachable states. -/
structure DB where
  employers : List EmployerRecord
  employees : List EmployeeRecord
deriving DecidableEq, Repr

/-! ## Store operations (employerDB / employeeDB wrappers in src/lib/db.ts).
db.add rejects when a record with the same key already exists
(IndexedDB ConstraintError); db.put replaces the record with the same key. -/

def employerDB.get (db : DB) (address : String) : Option EmployerRecord :=
  db.employers.find? (fun r => r.address == address)

def employeeDB.get (db : DB) (address : String) : Option EmployeeRecord :=
  db.employees.find? (fun r => r.address == address)

/-- Input of employerDB.add: the stored value minus registrationDate. -/
structure EmployerAddInput where
  address : String
  name : Option String
  lastLogin : Option Nat
deriving DecidableEq, Repr

/-- Input of employeeDB.add: the stored value minus registrationDate and
status. -/
structure EmployeeAddInput where
  address : String
  name : String
  employerAddress : String
  amount : String
  schedule : String
  lastPaid : Option Nat
deriving DecidableEq, Repr

/-- employerDB.add: spreads the input, stamps registrationDate with the
current time, and inserts; IndexedDB add rejects an existing key. -/
def employerDB.add (db : DB) (d : EmployerAddInput) (now : Nat) :
    Except String DB :=
  if (employerDB.get db d.address).isSome then
    .error "ConstraintError: a record with the given key already exists"
  else
    .ok { db with
          employers := db.employers ++ [⟨d.address, d.name, now, d.lastLogin⟩] }

/-- employeeDB.add: spreads the input, stamps registrationDate with the
current time and status Active, and inserts; add rejects an existing key. -/
def employeeDB.add (db : DB) (d : EmployeeAddInput) (now : Nat) :
    Except String DB :=
  if (employeeDB.get db d.address).isSome then
    .error "ConstraintError: a record with the given key already exists"
  else
    .ok { db with
          employees := db.employees ++
            [⟨d.address, d.name, d.employerAddress, d.amount, d.schedule,
              now, d.lastPaid, .Active⟩] }

/-- Partial employer update (Partial of the stored value plus the key). -/
structure EmployerUpdateInput where
  address : String
  name : Option String
  registrationDate : Option Nat
  lastLogin : Option Nat
deriving DecidableEq, Repr

/-- Partial employee update (Partial of the stored value plus the key). -/
structure EmployeeUpdateInput where
  address : String
  name : Option String
  employerAddress : Option String
  amount : Option String
  schedule : Option String
  registrationDate : Option Nat
  lastPaid : Option Nat
  status : Option EmpStatus
deriving DecidableEq, Repr

/-- Object spread of a partial employer update over an existing record. -/
def mergeEmployer (old : EmployerRecord) (u : EmployerUpdateInput) :
    EmployerRecord :=
  { address := u.address
    name := match u.name with | some n => some n | none => old.name
    registrationDate := u.registrationDate.getD old.registrationDate
    lastLogin := match u.lastLogin with | some t => some t | none => old.lastLogin }

/-- Object spread of a partial employee update over an existing record. -/
def mergeEmployee (old : EmployeeRecord) (u : EmployeeUpdateInput) :
    EmployeeRecord :=
  { address := u.address
    name := u.name.getD old.name
    employerAddress := u.employerAddress.getD old.employerAddress
    amount := u.amount.getD old.amount
    schedule := u.schedule.getD old.schedule
    registrationDate := u.registrationDate.getD old.registrationDate
    lastPaid := match u.lastPaid with | some t => some t | none => old.lastPaid
    status := u.status.getD old.status }

/-- IndexedDB put on the employers store: replace the record with the same
key. -/
def putEmployer (db : DB) (r : EmployerRecord) : DB :=
  if (employerDB.get db r.address).isSome then
    { db with employers :=
        db.employers.map (fun x => if x.address == r.address then r else x) }
  else
    { db with employers := db.employers ++ [r] }

/-- IndexedDB put on the employees store: replace the record with the same
key. -/
def putEmployee (db : DB) (r : EmployeeRecord) : DB :=
  if (employeeDB.get db r.address).isSome then
    { db with employees :=
        db.employees.map (fun x => if x.address == r.address then r else x) }
  else
    { db with employees := db.employees ++ [r] }

/-- employerDB.update: throws Employer not found when no record exists for
the key, otherwise puts the spread of the partial data over the existing
record. -/
def employerDB.update (db : DB) (u : EmployerUpdateInput) : Except String DB :=
  match employerDB.get db u.address with
  | none => .error "Employer not found"
  | some old => .ok (putEmployer db (mergeEmployer old u))

/-- employeeDB.update: throws Employee not found when no record exists for
the key, otherwise puts the spread of the partial data over the existing
record. -/
def employeeDB.update (db : DB) (u : EmployeeUpdateInput) : Except String DB :=
  match employeeDB.get db u.address with
  | none => .error "Employee not found"
  | some old => .ok (putEmployee db (mergeEmployee old u))

/-! ## Role resolution (AuthService.checkUserRole, src/lib/auth-service.ts
lines 202-225) -/

/-- Result shape of checkUserRole. -/
structure RoleResult where
  role : Option UserRole
  employerAddress : Option String
deriving DecidableEq, Repr

/-- checkUserRole with the two store lookups supplied as (possibly failing)
outcomes, reflecting the try/catch around them: any lookup error is caught
and mapped to role null.  The employee lookup only happens when the employer
lookup returned no record. -/
def checkUserRoleWith (empRes : Except String (Option EmployerRecord))
    (eeRes : Except String (Option EmployeeRecord)) : RoleResult :=
  match empRes with
  | .error _ => { role := none, employerAddress := none }
  | .ok (some _) => { role := some .employer, employerAddress := none }
  | .ok none =>
    match eeRes with
    | .error _ => { role := none, employerAddress := none }
    | .ok (some e) =>
      { role := some .employee, employerAddress := some e.employerAddress }
    | .ok none => { role := none, employerAddress := none }

/-- checkUserRole on a database state whose lookups succeed. -/
def checkUserRole (db : DB) (address : String) : RoleResult :=
  checkUserRoleWith (.ok (employerDB.get db address))
    (.ok (employeeDB.get db address))

/-! ## Supported networks (SUPPORTED_NETWORKS, src/lib/auth-service.ts
lines 17-54) -/

structure NativeCurrency where
  name : String
  symbol : String
  decimals : Nat
deriving DecidableEq, Repr

structure NetworkDetails where
  name : String
  nativeCurrency : NativeCurrency
  rpcUrls : List String
  blockExplorerUrls : List String
deriving DecidableEq, Repr

def SUPPORTED_NETWORKS : List (Nat × NetworkDetails) :=
  [ (1, ⟨"Ethereum Mainnet", ⟨"Ether", "ETH", 18⟩,
        ["https://mainnet.infura.io/v3/"], ["https://etherscan.io"]⟩),
    (5, ⟨"Goerli Testnet", ⟨"Goerli Ether", "ETH", 18⟩,
        ["https://goerli.infura.io/v3/"], ["https://goerli.etherscan.io"]⟩),
    (11155111, ⟨"Sepolia Testnet", ⟨"Sepolia Ether", "ETH", 18⟩,
        ["https://sepolia.infura.io/v3/"], ["https://sepolia.etherscan.io"]⟩),
    (137, ⟨"Polygon Mainnet", ⟨"MATIC", "MATIC", 18⟩,
        ["https://polygon-rpc.com"], ["https://polygonscan.com"]⟩),
    (80001, ⟨"Mumbai Testnet", ⟨"MATIC", "MATIC", 18⟩,
        ["https://rpc-mumbai.maticvigil.com"], ["https://mumbai.polygonscan.com"]⟩),
    (50002, ⟨"PHAROS", ⟨"PHAROS", "PHAROS", 18⟩,
        ["https://devnet.dplabs-internal.com"], []⟩) ]

def supportedNetworkIds : List Nat := SUPPORTED_NETWORKS.map Prod.fst

def lookupNetwork (chainId : Nat) : Option NetworkDetails :=
  (SUPPORTED_NETWORKS.find? (fun p => p.fst == chainId)).map Prod.snd

/-! ## Network check (AuthService.checkNetwork, lines 510-537) -/

structure NetworkStatus where
  valid : Bool
  chainId : Nat
  name : String
deriving DecidableEq, Repr

/-- checkNetwork over the wallet presence flag and the outcome of the
eth_chainId request (none models a rejected request, caught and mapped). -/
def checkNetwork (hasEthereum : Bool) (chainIdRes : Option Nat) :
    NetworkStatus :=
  if hasEthereum = false then ⟨false, 0, "No wallet detected"⟩
  else
    match chainIdRes with
    | none => ⟨false, 0, "Error checking network"⟩
    | some chainId =>
      let isSupported := supportedNetworkIds.contains chainId
      let networkName :=
        if isSupported then
          match lookupNetwork chainId with
          | some d => d.name
          | none => "Unknown Network"
        else "Unknown Network"
      ⟨isSupported, chainId, networkName⟩

/-! ## Wallet environment: outcomes of the external wallet provider calls,
the signer, and the ethers address normalizer.  Each field records what the
corresponding external call would return in the modelled run. -/

/-- A JSON-RPC style error thrown by the wallet provider. -/
structure RpcError where
  code : Option Int
  message : String
deriving DecidableEq, Repr

structure AuthEnv where
  /-- window.ethereum is present. -/
  hasEthereum : Bool
  /-- Outcome of the eth_requestAccounts request. -/
  requestAccounts : Except RpcError (List String)
  /-- Outcome of the eth_accounts refresh issued by connectWallet. -/
  ethAccountsRefresh : Except RpcError Unit
  /-- Outcome of signer.getAddress (error carries the thrown message). -/
  signerGetAddress : Except String String
  /-- Outcome of the eth_chainId request, already parsed from hex
  (none models a rejected request). -/
  chainIdRes : Option Nat
  /-- The AuthService instance already holds a signer at entry. -/
  hasSigner : Bool
  /-- ethers.utils.getAddress: normalized address, or none when the input
  is not a well formed Ethereum address (the library throws). -/
  getAddress : String → Option String
  /-- Outcome of the wallet_switchEthereumChain request. -/
  switchChainRes : Except RpcError Unit
  /-- eth_chainId after a completed switch request. -/
  chainIdAfterSwitch : Option Nat
  /-- Outcome of the wallet_addEthereumChain request. -/
  addChainRes : Except RpcError Unit
  /-- eth_chainId after a completed add request. -/
  chainIdAfterAdd : Option Nat

/-! ## Wallet connection (AuthService.connectWallet, lines 79-137) -/

def noWalletMsg : String :=
  "MetaMask or compatible wallet not detected. Please install a Web3 wallet to continue."

def rejectedConnectionMsg : String :=
  "You rejected the wallet connection request. Please try again and approve the connection."

def pendingConnectionMsg : String :=
  "Wallet connection request already pending. Please check your wallet and approve the connection."

def noAccountsMsg : String :=
  "No accounts found. Please ensure your wallet is unlocked and try again."

def noAddressMsg : String :=
  "Failed to get wallet address. Please try again."

/-- The catch block of connectWallet: error code 4001 and -32002 are mapped
to friendly messages, anything else is rethrown. -/
def mapConnectError (e : RpcError) : String :=
  if e.code == some 4001 then rejectedConnectionMsg
  else if e.code == some (-32002) then pendingConnectionMsg
  else e.message

/-- Fallback of connectWallet when the signer address lookup fails or
returns a falsy value: use the first requested account if truthy, otherwise
rethrow the no-address error. -/
def fallbackAddress (accounts : List String) : Except String String :=
  match accounts.head? with
  | some a => if a ≠ "" then .ok a else .error noAddressMsg
  | none => .error noAddressMsg

/-- AuthService.connectWallet: request accounts, refresh the provider,
read the signer address (falling back to the first account), and return the
address.  The trailing checkNetwork call of the source never throws and does
not affect the returned value. -/
def connectWallet (env : AuthEnv) : Except String String :=
  if env.hasEthereum = false then .error noWalletMsg
  else
    match env.requestAccounts with
    | .error e => .error (mapConnectError e)
    | .ok accounts =>
      if accounts.length == 0 then .error noAccountsMsg
      else
        match env.ethAccountsRefresh with
        | .error e => .error (mapConnectError e)
        | .ok _ =>
          match env.signerGetAddress with
          | .ok address =>
            if address ≠ "" then .ok address else fallbackAddress accounts
          | .error _ => fallbackAddress accounts

/-! ## Login flow (AuthService.login, lines 231-260, and the
useAuthentication.login caller that persists the state and redirects).
Completed steps are recorded as events so that the linear order of the flow
is part of the result. -/

inductive Ev
  | connectEv
  | networkCheckEv
  | roleLookupEv
  | persistEv
  | redirectEv (path : String)
deriving DecidableEq, Repr

structure LoginResult where
  address : String
  role : UserRole
  employerAddress : Option String
deriving DecidableEq, Repr

def unsupportedLoginMsg (networkName : String) : String :=
  "Please switch to a supported network to login. Current network: " ++ networkName

def notRegisteredMsg : String :=
  "This wallet is not registered. Please register first to access the platform."

/-- AuthService.login: connect the wallet, then check the network, then
resolve the role; each completed step appends its event. -/
def login (env : AuthEnv) (db : DB) :
    Except String LoginResult × List Ev :=
  match connectWallet env with
  | .error e => (.error e, [])
  | .ok address =>
    let ns := checkNetwork env.hasEthereum env.chainIdRes
    if ns.valid = false then
      (.error (unsupportedLoginMsg ns.name), [.connectEv, .networkCheckEv])
    else
      let r := checkUserRole db address
      match r.role with
      | none =>
        (.error notRegisteredMsg,
          [.connectEv, .networkCheckEv, .roleLookupEv])
      | some role =>
        (.ok ⟨address, role, r.employerAddress⟩,
          [.connectEv, .networkCheckEv, .roleLookupEv])

/-- The dashboard route pushed by useAuthentication.login for each role. -/
def roleDashboard (r : UserRole) : String :=
  match r with
  | .employer => "/employer"
  | .employee => "/employee"

/-- useAuthentication.login: on success, persist the authentication state
into the user store and then redirect to the role dashboard; on error,
neither persist nor redirect. -/
def useAuthenticationLogin (env : AuthEnv) (db : DB) :
    Except String LoginResult × List Ev :=
  match login env db with
  | (.error e, tr) => (.error e, tr)
  | (.ok s, tr) =>
    (.ok s, tr ++ [.persistEv, .redirectEv (roleDashboard s.role)])

/-! ## Registration (AuthService.registerAsEmployer lines 267-312 and
AuthService.registerAsEmployee lines 320-388) -/

def unsupportedRegisterMsg (networkName : String) : String :=
  "Please switch to a supported network to register. Current network: " ++ networkName

def alreadyEmployerMsg : String :=
  "This wallet is already registered as an employer. Please use a different wallet or log in instead."

def alreadyEmployeeForEmployerMsg : String :=
  "This wallet is already registered as an employee. Please use a different wallet to register as an employer."

def alreadyEmployeeMsg : String :=
  "This wallet is already registered as an employee. Please use a different wallet or log in instead."

def alreadyEmployerForEmployeeMsg : String :=
  "This wallet is already registered as an employer. Please use a different wallet to register as an employee."

def invalidEmployerAddressMsg : String :=
  "Invalid employer address format. Please provide a valid Ethereum address."

def selfEmploymentMsg : String :=
  "You cannot register as an employee using your own address as the employer."

def employerNotFoundMsg : String :=
  "Employer not found. Please verify the employer address and try again."

/-- JS String.prototype.toLowerCase, expressed on the character list of the
string. -/
def strToLower (s : String) : String := ⟨s.data.map Char.toLower⟩

/-- The catch block of both register functions: the generic message
No signer available is replaced by a friendlier one. -/
def mapRegisterError (m : String) : String :=
  if m == "No signer available" then
    "Wallet connection failed. Please try connecting your wallet again."
  else m

/-- The this.signer guard shared by both register functions: connect the
wallet when no signer is held yet. -/
def ensureSigner (env : AuthEnv) : Except String Unit :=
  if env.hasSigner then .ok ()
  else (connectWallet env).map (fun _ => ())

/-- AuthService.registerAsEmployer: ensure a signer, validate the network,
reject an already registered wallet, then insert the employer record. -/
def registerAsEmployer (env : AuthEnv) (db : DB) (name : String) (now : Nat) :
    Except String Bool × DB :=
  match ensureSigner env with
  | .error e => (.error e, db)
  | .ok _ =>
    let ns := checkNetwork env.hasEthereum env.chainIdRes
    if ns.valid = false then (.error (unsupportedRegisterMsg ns.name), db)
    else
      match env.signerGetAddress with
      | .error m => (.error (mapRegisterError m), db)
      | .ok address =>
        match (checkUserRole db address).role with
        | some .employer => (.error alreadyEmployerMsg, db)
        | some .employee => (.error alreadyEmployeeForEmployerMsg, db)
        | none =>
          let storedName := if name.trim == "" then "Employer" else name.trim
          match employerDB.add db ⟨address, some storedName, none⟩ now with
          | .error e => (.error e, db)
          | .ok db2 => (.ok true, db2)

/-- AuthService.registerAsEmployee: normalize and validate the employer
address, ensure a signer, validate the network, reject self employment and
an already registered wallet, optionally check the employer exists, then
insert the employee record. -/
def registerAsEmployee (env : AuthEnv) (db : DB) (employerAddress : String)
    (skipEmployerCheck : Bool) (now : Nat) : Except String Bool × DB :=
  match env.getAddress employerAddress with
  | none => (.error invalidEmployerAddressMsg, db)
  | some empAddr =>
    match ensureSigner env with
    | .error e => (.error e, db)
    | .ok _ =>
      let ns := checkNetwork env.hasEthereum env.chainIdRes
      if ns.valid = false then (.error (unsupportedRegisterMsg ns.name), db)
      else
        match env.signerGetAddress with
        | .error m => (.error (mapRegisterError m), db)
        | .ok address =>
          if strToLower address == strToLower empAddr then
            (.error selfEmploymentMsg, db)
          else
            match (checkUserRole db address).role with
            | some .employee => (.error alreadyEmployeeMsg, db)
            | some .employer => (.error alreadyEmployerForEmployeeMsg, db)
            | none =>
              if skipEmployerCheck = false ∧
                  (employerDB.get db empAddr).isNone then
                (.error employerNotFoundMsg, db)
              else
                match employeeDB.add db
                    ⟨address, "", empAddr, "0", "monthly", none⟩ now with
                | .error e => (.error e, db)
                | .ok db2 => (.ok true, db2)

/-! ## Employer-driven employee registration
(useEmployeeStore.registerAsEmployee in src/stores/useEmployeeStore.ts and
handleEmployeeRegistration in src/app/actions/employee-registration.ts) -/

/-- useEmployeeStore.registerAsEmployee: read the signer address, return
silently when an employee record already exists for it, otherwise add a
minimal employee record for the signer under the given employer. -/
def storeRegisterAsEmployee (env : AuthEnv) (db : DB)
    (employerAddress : String) (now : Nat) : Except String Unit × DB :=
  match env.signerGetAddress with
  | .error m => (.error m, db)
  | .ok address =>
    match employeeDB.get db address with
    | some _ => (.ok (), db)
    | none =>
      match employeeDB.add db
          ⟨address, "", employerAddress, "0", "monthly", none⟩ now with
      | .error e => (.error e, db)
      | .ok db2 => (.ok (), db2)

structure EmployeeRegistrationData where
  name : String
  address : String
  amount : String
  schedule : String
deriving DecidableEq, Repr

structure RegResult where
  success : Bool
  error : Option String
deriving DecidableEq, Repr

def regFailureMsg (m : String) : String :=
  "Failed to register as employee: " ++ m

/-- handleEmployeeRegistration: auto-register the employer if absent, run
the store registration (which registers the signing wallet), then add the
given employee record.  Each IndexedDB write commits on its own, so a later
failure leaves the earlier writes in place. -/
def handleEmployeeRegistration (env : AuthEnv) (db : DB)
    (employerAddress : String) (employeeData : EmployeeRegistrationData)
    (now : Nat) : RegResult × DB :=
  let ensured : Except String DB :=
    match employerDB.get db employerAddress with
    | some _ => .ok db
    | none =>
      employerDB.add db ⟨employerAddress, some "Auto-registered Employer", none⟩ now
  match ensured with
  | .error e => (⟨false, some (regFailureMsg e)⟩, db)
  | .ok db1 =>
    match storeRegisterAsEmployee env db1 employerAddress now with
    | (.error e, db2) => (⟨false, some (regFailureMsg e)⟩, db2)
    | (.ok _, db2) =>
      match employeeDB.add db2
          ⟨employeeData.address, employeeData.name, employerAddress,
            employeeData.amount, employeeData.schedule, none⟩ now with
      | .error e => (⟨false, some (regFailureMsg e)⟩, db2)
      | .ok db3 => (⟨true, none⟩, db3)

/-! ## Network switching (AuthService.switchNetwork, lines 544-608) -/

structure AddChainParams where
  chainId : Nat
  chainName : String
  nativeCurrency : NativeCurrency
  rpcUrls : List String
  blockExplorerUrls : List String
deriving DecidableEq, Repr

/-- The wallet RPC requests switchNetwork can issue, in order. -/
inductive RpcCall
  | switchEthereumChain (chainId : Nat)
  | addEthereumChain (params : AddChainParams)
deriving DecidableEq, Repr

def rejectedSwitchMsg : String :=
  "You rejected the network switch request. Please approve the network switch to continue."

def chainNotSupportedMsg (chainId : Nat) : String :=
  "Network with chainId " ++ toString chainId ++ " is not supported. Please contact support."

def addNetworkFailureMsg (m : String) : String :=
  "Failed to add network: " ++ (if m == "" then "Unknown error" else m) ++
    ". Please try adding the network manually in your wallet."

def switchNetworkFailureMsg (m : String) : String :=
  "Failed to switch network: " ++ (if m == "" then "Unknown error" else m) ++
    ". Please try switching networks manually in your wallet."

/-- AuthService.switchNetwork: return early when already on the requested
chain, otherwise request a chain switch; on error 4902 add the allow-listed
chain parameters via wallet_addEthereumChain, on error 4001 report the user
rejection, otherwise wrap the failure message.  Issued RPC requests are
returned alongside the result. -/
def switchNetwork (env : AuthEnv) (chainId : Nat) :
    Except String Bool × List RpcCall :=
  if env.hasEthereum = false then (.error noWalletMsg, [])
  else
    let current := checkNetwork env.hasEthereum env.chainIdRes
    if current.chainId == chainId then (.ok true, [])
    else
      match env.switchChainRes with
      | .ok _ =>
        let after := checkNetwork env.hasEthereum env.chainIdAfterSwitch
        (.ok (after.chainId == chainId), [.switchEthereumChain chainId])
      | .error e =>
        if e.code == some 4902 then
          match lookupNetwork chainId with
          | none =>
            (.error (addNetworkFailureMsg (chainNotSupportedMsg chainId)),
              [.switchEthereumChain chainId])
          | some details =>
            let params : AddChainParams :=
              ⟨chainId, details.name, details.nativeCurrency,
                details.rpcUrls, details.blockExplorerUrls⟩
            match env.addChainRes with
            | .ok _ =>
              let after := checkNetwork env.hasEthereum env.chainIdAfterAdd
              (.ok (after.chainId == chainId),
                [.switchEthereumChain chainId, .addEthereumChain params])
            | .error ae =>
              (.error (addNetworkFailureMsg ae.message),
                [.switchEthereumChain chainId, .addEthereumChain params])
        else if e.code == some 4001 then
          (.error rejectedSwitchMsg, [.switchEthereumChain chainId])
        else
          (.error (switchNetworkFailureMsg e.message),
            [.switchEthereumChain chainId])

/-! ## Route middleware (src/middleware.ts) -/

inductive MwResult
  | redirect (url : String)
  | next
deriving DecidableEq, Repr

def protectedRoutes : List String := ["/employer", "/employee"]

def authRoutes : List String := ["/auth", "/"]

/-- JS String.prototype.startsWith, expressed on the character lists of the
strings. -/
def strStartsWith (s p : String) : Bool := p.data.isPrefixOf s.data

/-- Truthiness of a cookie value: absent and empty-string values are falsy. -/
def cookieTruthy : Option String → Bool
  | none => false
  | some s => s ≠ ""

/-- The middleware: guard the two dashboards behind the auth-token cookie
and the matching user-role cookie, and bounce authenticated users away from
the auth routes to their dashboard. -/
def middleware (path : String) (authToken userRole : Option String) :
    MwResult :=
  let protStep : Option MwResult :=
    if protectedRoutes.any (fun route => strStartsWith path route) then
      if cookieTruthy authToken = false then some (.redirect "/auth")
      else if strStartsWith path "/employer" && !(userRole == some "employer") then
        some (.redirect "/employee")
      else if strStartsWith path "/employee" && !(userRole == some "employee") then
        some (.redirect "/employer")
      else none
    else none
  match protStep with
  | some r => r
  | none =>
    if authRoutes.contains path && cookieTruthy authToken &&
        cookieTruthy userRole then
      .redirect (if userRole == some "employer" then "/employer" else "/employee")
    else
      .next

/-! ## Auxiliary notions for the statements -/

/-- Whether a fallible call threw. -/
def isErr {α : Type} (x : Except String α) : Bool :=
  match x with
  | .error _ => true
  | .ok _ => false

/-- The database state after a store operation: the new state on success,
the old one when the operation threw. -/
def dbAfter (x : Except String DB) (db : DB) : DB :=
  match x with
  | .ok d => d
  | .error _ => db

/-- Role exclusivity: no address registered in the employers store also has
a record in the employees store. -/
def rolesExclusiveB (db : DB) : Bool :=
  db.employers.all (fun r => (employeeDB.get db r.address).isNone)

/-! ## Concrete inputs used by the witnesses and counterexamples -/

/-- A wallet environment in which every external call succeeds: one account
0xE, a signer for it, and the wallet already on the Pharos chain. -/
def envHappy : AuthEnv :=
  { hasEthereum := true
    requestAccounts := .ok ["0xE"]
    ethAccountsRefresh := .ok ()
    signerGetAddress := .ok "0xE"
    chainIdRes := some 50002
    hasSigner := true
    getAddress := fun s => if s == "0xB" then some "0xb" else none
    switchChainRes := .ok ()
    chainIdAfterSwitch := some 50002
    addChainRes := .ok ()
    chainIdAfterAdd := some 50002 }

/-- Like envHappy, but the signer address 0xab matches the employer address
0xAB passed to registerAsEmployee up to letter case. -/
def envSelf : AuthEnv :=
  { envHappy with
    signerGetAddress := .ok "0xab"
    getAddress := fun s => if s == "0xAB" then some "0xab" else none }

/-- A database with employer 0xE registered and no employees. -/
def dbEmployerOnly : DB := ⟨[⟨"0xE", some "Boss", 0, none⟩], []⟩

/-- The employee data an employer submits for a new hire 0xA. -/
def dataC4 : EmployeeRegistrationData := ⟨"Alice", "0xA", "100", "monthly"⟩

/-- A database that already holds an employee record for 0xa. -/
def dbC6 : DB :=
  ⟨[], [⟨"0xa", "Old", "0xE", "1", "weekly", 0, none, .Active⟩]⟩

/-- A fresh employee value for the already-taken key 0xa. -/
def rC6 : EmployeeAddInput := ⟨"0xa", "New", "0xF", "2", "monthly", none⟩

/-- A fresh employer value for an empty store. -/
def er0 : EmployerAddInput := ⟨"0xE", some "Boss", none⟩

/-- A fresh employee value for an empty store. -/
def r0 : EmployeeAddInput := ⟨"0xA", "Alice", "0xE", "100", "monthly", none⟩

/-- A partial employee update for an address with no record. -/
def u0 : EmployeeUpdateInput :=
  ⟨"0xMissing", some "N", none, none, none, none, none, none⟩

/-- A partial employer update for an address with no record. -/
def uu0 : EmployerUpdateInput := ⟨"0xMissing", some "N", none, none⟩

/-! ## Helper lemmas -/

theorem find?_append_right {α : Type} (p : α → Bool) (l₁ l₂ : List α)
    (h : l₁.find? p = none) : (l₁ ++ l₂).find? p = l₂.find? p := by
  rw [List.find?_append, h]; rfl

theorem isPrefixOfEqOfLengthEq :
    ∀ (a b s : List Char), a.isPrefixOf s = true → b.isPrefixOf s = true →
      a.length = b.length → a = b := by
  intro a
  induction a with
  | nil =>
    intro b s _ _ hl
    cases b with
    | nil => rfl
    | cons z zs => simp at hl
  | cons x xs ih =>
    intro b s ha hb hl
    cases s with
    | nil => simp [List.isPrefixOf] at ha
    | cons y ys =>
      cases b with
      | nil => simp at hl
      | cons z zs =>
        simp only [List.isPrefixOf, Bool.and_eq_true, beq_iff_eq] at ha hb
        have hxs := ih zs ys ha.2 hb.2 (by simpa using hl)
        simp [ha.1, hb.1, hxs]

theorem startsWithEmployerNotEmployee (p : String)
    (h : strStartsWith p "/employer" = true) :
    strStartsWith p "/employee" = false := by
  by_contra hne
  have h2 : strStartsWith p "/employee" = true := by
    simpa using hne
  have heq := isPrefixOfEqOfLengthEq "/employer".data "/employee".data p.data
    h h2 (by decide)
  exact absurd heq (by decide)

theorem startsWithEmployeeNotEmployer (p : String)
    (h : strStartsWith p "/employee" = true) :
    strStartsWith p "/employer" = false := by
  by_contra hne
  have h2 : strStartsWith p "/employer" = true := by
    simpa using hne
  have heq := isPrefixOfEqOfLengthEq "/employee".data "/employer".data p.data
    h h2 (by decide)
  exact absurd heq (by decide)

theorem startsWithNotAuthRoute (p q : String) (hq : strStartsWith q p = false)
    (h : strStartsWith p p = true) : p ≠ q := by
  intro he
  subst he
  rw [h] at hq
  exact absurd hq (by decide)

/-! ## Claim theorems -/

/-- Claim C1: checkUserRole resolves an address to role employer when the
employers store holds a record for it, otherwise to role employee together
with the employerAddress field of the stored employee record when the
employees store holds a record for it, and otherwise to role null. -/
theorem checkUserRole_role_resolution (db : DB) (address : String) :
    ((employerDB.get db address).isSome = true →
      checkUserRole db address = ⟨some .employer, none⟩) ∧
    (∀ e, employerDB.get db address = none →
      employeeDB.get db address = some e →
      checkUserRole db address = ⟨some .employee, some e.employerAddress⟩) ∧
    (employerDB.get db address = none → employeeDB.get db address = none →
      checkUserRole db address = ⟨none, none⟩) := by
  refine ⟨?_, ?_, ?_⟩
  · intro h
    obtain ⟨r, hr⟩ := Option.isSome_iff_exists.mp h
    simp [checkUserRole, checkUserRoleWith, hr]
  · intro e h1 h2
    simp [checkUserRole, checkUserRoleWith, h1, h2]
  · intro h1 h2
    simp [checkUserRole, checkUserRoleWith, h1, h2]

/-- Witness for C1: the empty database resolves any address to role null. -/
theorem checkUserRole_role_resolution_witness :
    checkUserRole ⟨[], []⟩ "0xE" = ⟨none, none⟩ :=
  (checkUserRole_role_resolution ⟨[], []⟩ "0xE").2.2 rfl rfl

/-- Claim C9: checkUserRole catches store-lookup failures and returns role
null for them, the same value it returns for an address registered in
neither store, so a caller cannot distinguish a storage failure from an
unregistered wallet.  The embedding is a total function, so no exception
escapes it. -/
theorem checkUserRole_swallows_storage_errors
    (empRes : Except String (Option EmployerRecord))
    (eeRes : Except String (Option EmployeeRecord)) (e1 e2 : String) :
    (empRes = .error e1 → checkUserRoleWith empRes eeRes = ⟨none, none⟩) ∧
    (checkUserRoleWith (.ok none) (.error e2) = ⟨none, none⟩) ∧
    (checkUserRoleWith (.ok none) (.ok none) = ⟨none, none⟩) := by
  refine ⟨?_, rfl, rfl⟩
  intro h
  simp [checkUserRoleWith, h]

/-- Witness for C9: a failing employer lookup yields role null. -/
theorem checkUserRole_swallows_storage_errors_witness :
    checkUserRoleWith (.error "storage failure") (.ok none) = ⟨none, none⟩ :=
  (checkUserRole_swallows_storage_errors (.error "storage failure") (.ok none)
    "storage failure" "x").1 rfl

/-- Claim C4: the program does not preserve employer/employee exclusivity.
Starting from a state where employer 0xE is registered and no address holds
both roles, handleEmployeeRegistration succeeds yet leaves 0xE registered in
both stores: the store-level registration step inserts the signing employer
itself into the employees store. -/
theorem handleEmployeeRegistration_breaks_role_exclusivity :
    rolesExclusiveB dbEmployerOnly = true ∧
    (handleEmployeeRegistration envHappy dbEmployerOnly "0xE" dataC4 5).1.success
      = true ∧
    rolesExclusiveB
      (handleEmployeeRegistration envHappy dbEmployerOnly "0xE" dataC4 5).2
      = false := by
  decide

/-- Counterexample for C6: adding a record whose key is already present
does not store it: the add request is rejected and the subsequent lookup
still returns the old record, not the record just added. -/
theorem employeeDB_add_existing_key_cex :
    isErr (employeeDB.add dbC6 rC6 7) = true ∧
    employeeDB.get dbC6 rC6.address ≠
      some ⟨rC6.address, rC6.name, rC6.employerAddress, rC6.amount,
        rC6.schedule, 7, rC6.lastPaid, .Active⟩ := by
  decide

/-- Claim C2: for every chain ID reported by the wallet, checkNetwork is
valid exactly on the allow-list 1, 5, 11155111, 137, 80001, 50002; a valid
chain reports the name recorded for it in SUPPORTED_NETWORKS, an invalid
one reports Unknown Network, and the parsed chain ID is echoed back. -/
theorem checkNetwork_allowlist (c : Nat) :
    ((checkNetwork true (some c)).valid = true ↔
      (c = 1 ∨ c = 5 ∨ c = 11155111 ∨ c = 137 ∨ c = 80001 ∨ c = 50002)) ∧
    (∀ d, lookupNetwork c = some d →
      (checkNetwork true (some c)).name = d.name) ∧
    ((checkNetwork true (some c)).valid = false →
      (checkNetwork true (some c)).name = "Unknown Network") ∧
    (checkNetwork true (some c)).chainId = c := by
  refine ⟨?_, ?_, ?_, ?_⟩
  · simp [checkNetwork, supportedNetworkIds, SUPPORTED_NETWORKS, List.contains]
  · intro d hd
    obtain ⟨pre, hfind, hsnd⟩ :
        ∃ pre, SUPPORTED_NETWORKS.find? (fun p => p.fst == c) = some pre ∧
          pre.snd = d := by
      cases hfe : SUPPORTED_NETWORKS.find? (fun p => p.fst == c) with
      | none => simp [lookupNetwork, hfe] at hd
      | some pre => exact ⟨pre, rfl, by simpa [lookupNetwork, hfe] using hd⟩
    have hp := List.find?_some hfind
    have hmem : pre ∈ SUPPORTED_NETWORKS := List.mem_of_find?_eq_some hfind
    have hceq : pre.fst = c := by simpa using hp
    have hmemIds : c ∈ supportedNetworkIds := by
      simp only [supportedNetworkIds]
      exact List.mem_map.mpr ⟨pre, hmem, hceq⟩
    have hcontains : supportedNetworkIds.contains c = true := by
      simpa [List.contains] using hmemIds
    simp [checkNetwork, lookupNetwork, hcontains, hfind, hsnd]
    exact fun hnot => absurd hmemIds hnot
  · intro h
    simp [checkNetwork] at h ⊢
    simp [h]
  · simp [checkNetwork]

/-- Witness for C2: chain 50002 is valid and named PHAROS. -/
theorem checkNetwork_allowlist_witness :
    (checkNetwork true (some 50002)).valid = true ∧
    (checkNetwork true (some 50002)).name = "PHAROS" :=
  ⟨(checkNetwork_allowlist 50002).1.mpr (by decide),
   (checkNetwork_allowlist 50002).2.1
     ⟨"PHAROS", ⟨"PHAROS", "PHAROS", 18⟩,
       ["https://devnet.dplabs-internal.com"], []⟩ rfl⟩

/-- Claim C6 (amended): the stores are key-value maps keyed by wallet
address: adding a record under a key with no existing record succeeds, and
the subsequent lookup of that key returns the record just added extended
with registrationDate (and, for employees, status Active) while lookups of
every other key are unaffected; adding under an existing key fails and
leaves the store unchanged; updating an address with no existing record
throws without modifying the store. -/
theorem db_keyvalue_roundtrip (db : DB) (er : EmployerAddInput)
    (r : EmployeeAddInput) (u : EmployeeUpdateInput)
    (uu : EmployerUpdateInput) (now : Nat) (a : String) :
    (employerDB.get db er.address = none →
      isErr (employerDB.add db er now) = false ∧
      employerDB.get (dbAfter (employerDB.add db er now) db) er.address =
        some ⟨er.address, er.name, now, er.lastLogin⟩ ∧
      (a ≠ er.address →
        employerDB.get (dbAfter (employerDB.add db er now) db) a =
          employerDB.get db a)) ∧
    (employeeDB.get db r.address = none →
      isErr (employeeDB.add db r now) = false ∧
      employeeDB.get (dbAfter (employeeDB.add db r now) db) r.address =
        some ⟨r.address, r.name, r.employerAddress, r.amount, r.schedule,
          now, r.lastPaid, .Active⟩ ∧
      (a ≠ r.address →
        employeeDB.get (dbAfter (employeeDB.add db r now) db) a =
          employeeDB.get db a)) ∧
    ((employerDB.get db er.address).isSome = true →
      isErr (employerDB.add db er now) = true ∧
      dbAfter (employerDB.add db er now) db = db) ∧
    ((employeeDB.get db r.address).isSome = true →
      isErr (employeeDB.add db r now) = true ∧
      dbAfter (employeeDB.add db r now) db = db) ∧
    (employeeDB.get db u.address = none →
      isErr (employeeDB.update db u) = true ∧
      dbAfter (employeeDB.update db u) db = db) ∧
    (employerDB.get db uu.address = none →
      isErr (employerDB.update db uu) = true ∧
      dbAfter (employerDB.update db uu) db = db) := by
  refine ⟨?_, ?_, ?_, ?_, ?_, ?_⟩
  · intro h
    have hadd : employerDB.add db er now =
        .ok { db with employers :=
          db.employers ++ [⟨er.address, er.name, now, er.lastLogin⟩] } := by
      simp [employerDB.add, h]
    refine ⟨by simp [hadd, isErr], ?_, ?_⟩
    · simp only [hadd, dbAfter, employerDB.get]
      rw [find?_append_right _ _ _ h]
      simp [List.find?]
    · intro hne
      simp only [hadd, dbAfter, employerDB.get]
      rw [List.find?_append]
      have hfalse : (EmployerRecord.address ⟨er.address, er.name, now,
          er.lastLogin⟩ == a) = false := by
        simpa using fun hc => hne hc.symm
      simp [List.find?, hfalse, Option.orElse]
  · intro h
    have hadd : employeeDB.add db r now =
        .ok { db with employees :=
          db.employees ++ [⟨r.address, r.name, r.employerAddress, r.amount,
            r.schedule, now, r.lastPaid, .Active⟩] } := by
      simp [employeeDB.add, h]
    refine ⟨by simp [hadd, isErr], ?_, ?_⟩
    · simp only [hadd, dbAfter, employeeDB.get]
      rw [find?_append_right _ _ _ h]
      simp [List.find?]
    · intro hne
      simp only [hadd, dbAfter, employeeDB.get]
      rw [List.find?_append]
      have hfalse : (EmployeeRecord.address ⟨r.address, r.name,
          r.employerAddress, r.amount, r.schedule, now, r.lastPaid,
          .Active⟩ == a) = false := by
        simpa using fun hc => hne hc.symm
      simp [List.find?, hfalse, Option.orElse]
  · intro h
    simp [employerDB.add, h, isErr, dbAfter]
  · intro h
    simp [employeeDB.add, h, isErr, dbAfter]
  · intro h
    simp [employeeDB.update, h, isErr, dbAfter]
  · intro h
    simp [employerDB.update, h, isErr, dbAfter]

/-- Witness for C6: on the empty database, adding employer 0xE succeeds and
the lookup returns the stamped record. -/
theorem db_keyvalue_roundtrip_witness :
    isErr (employerDB.add ⟨[], []⟩ er0 3) = false ∧
    employerDB.get (dbAfter (employerDB.add ⟨[], []⟩ er0 3) ⟨[], []⟩)
      "0xE" = some ⟨"0xE", some "Boss", 3, none⟩ :=
  ⟨((db_keyvalue_roundtrip ⟨[], []⟩ er0 r0 u0 uu0 3 "0xz").1 rfl).1,
   ((db_keyvalue_roundtrip ⟨[], []⟩ er0 r0 u0 uu0 3 "0xz").1 rfl).2.1⟩

/-- Claim C3: the login flow is linear.  Connecting (which yields the
address) strictly precedes the network check; an unsupported network aborts
the flow with no role lookup; a null role aborts it; and only with a
non-null role does the caller persist the authentication state and then
issue the role-based redirect, in that order. -/
theorem login_flow_linear_order (env : AuthEnv) (db : DB) :
    (∀ e, connectWallet env = .error e →
      useAuthenticationLogin env db = (.error e, [])) ∧
    (∀ a, connectWallet env = .ok a →
      (checkNetwork env.hasEthereum env.chainIdRes).valid = false →
      useAuthenticationLogin env db =
        (.error (unsupportedLoginMsg
            (checkNetwork env.hasEthereum env.chainIdRes).name),
          [.connectEv, .networkCheckEv])) ∧
    (∀ a, connectWallet env = .ok a →
      (checkNetwork env.hasEthereum env.chainIdRes).valid = true →
      (checkUserRole db a).role = none →
      useAuthenticationLogin env db =
        (.error notRegisteredMsg,
          [.connectEv, .networkCheckEv, .roleLookupEv])) ∧
    (∀ a r, connectWallet env = .ok a →
      (checkNetwork env.hasEthereum env.chainIdRes).valid = true →
      (checkUserRole db a).role = some r →
      useAuthenticationLogin env db =
        (.ok ⟨a, r, (checkUserRole db a).employerAddress⟩,
          [.connectEv, .networkCheckEv, .roleLookupEv, .persistEv,
            .redirectEv (roleDashboard r)])) := by
  refine ⟨?_, ?_, ?_, ?_⟩
  · intro e h
    simp [useAuthenticationLogin, login, h]
  · intro a h hv
    simp [useAuthenticationLogin, login, h, hv]
  · intro a h hv hr
    simp [useAuthenticationLogin, login, h, hv, hr]
  · intro a r h hv hr
    simp [useAuthenticationLogin, login, h, hv, hr]

/-- Witness for C3: in the happy environment with employer 0xE registered,
login succeeds and the trace is connect, network check, role lookup,
persist, redirect to the employer dashboard. -/
theorem login_flow_linear_order_witness :
    useAuthenticationLogin envHappy dbEmployerOnly =
      (.ok ⟨"0xE", .employer, none⟩,
        [.connectEv, .networkCheckEv, .roleLookupEv, .persistEv,
          .redirectEv "/employer"]) :=
  (login_flow_linear_order envHappy dbEmployerOnly).2.2.2 "0xE" .employer
    rfl rfl rfl

/-- Claim C5: switchNetwork returns true issuing no RPC when the wallet is
already on the requested chain; otherwise it requests
wallet_switchEthereumChain and returns whether the resulting chain matches;
on error 4902 it requests wallet_addEthereumChain with the allow-listed
parameters (throwing, without an add request, when the chain is not in the
allow-list); on error 4001 it throws the switch-rejection message. -/
theorem switchNetwork_rpc_behavior (env : AuthEnv) (chainId : Nat) :
    (env.hasEthereum = true →
      (checkNetwork env.hasEthereum env.chainIdRes).chainId = chainId →
      switchNetwork env chainId = (.ok true, [])) ∧
    (env.hasEthereum = true →
      (checkNetwork env.hasEthereum env.chainIdRes).chainId ≠ chainId →
      env.switchChainRes = .ok () →
      switchNetwork env chainId =
        (.ok ((checkNetwork env.hasEthereum env.chainIdAfterSwitch).chainId
            == chainId),
          [.switchEthereumChain chainId])) ∧
    (∀ e, env.hasEthereum = true →
      (checkNetwork env.hasEthereum env.chainIdRes).chainId ≠ chainId →
      env.switchChainRes = .error e → e.code = some 4902 →
      lookupNetwork chainId = none →
      switchNetwork env chainId =
        (.error (addNetworkFailureMsg (chainNotSupportedMsg chainId)),
          [.switchEthereumChain chainId])) ∧
    (∀ e d, env.hasEthereum = true →
      (checkNetwork env.hasEthereum env.chainIdRes).chainId ≠ chainId →
      env.switchChainRes = .error e → e.code = some 4902 →
      lookupNetwork chainId = some d → env.addChainRes = .ok () →
      switchNetwork env chainId =
        (.ok ((checkNetwork env.hasEthereum env.chainIdAfterAdd).chainId
            == chainId),
          [.switchEthereumChain chainId,
            .addEthereumChain ⟨chainId, d.name, d.nativeCurrency, d.rpcUrls,
              d.blockExplorerUrls⟩])) ∧
    (∀ e, env.hasEthereum = true →
      (checkNetwork env.hasEthereum env.chainIdRes).chainId ≠ chainId →
      env.switchChainRes = .error e → e.code = some 4001 →
      switchNetwork env chainId =
        (.error rejectedSwitchMsg, [.switchEthereumChain chainId])) := by
  refine ⟨?_, ?_, ?_, ?_, ?_⟩
  · intro hw hc
    rw [hw] at hc
    simp [switchNetwork, hw, hc]
  · intro hw hc hs
    rw [hw] at hc
    simp [switchNetwork, hw, hc, hs]
  · intro e hw hc hs hcode hl
    rw [hw] at hc
    simp [switchNetwork, hw, hc, hs, hcode, hl]
  · intro e d hw hc hs hcode hl ha
    rw [hw] at hc
    simp [switchNetwork, hw, hc, hs, hcode, hl, ha]
  · intro e hw hc hs hcode
    rw [hw] at hc
    simp [switchNetwork, hw, hc, hs, hcode]

/-- Witness for C5: already on chain 50002, switchNetwork returns true and
issues no RPC request. -/
theorem switchNetwork_rpc_behavior_witness :
    switchNetwork envHappy 50002 = (.ok true, []) :=
  (switchNetwork_rpc_behavior envHappy 50002).1 rfl rfl

/-- Claim C7: connectWallet throws when no provider is present or when
eth_requestAccounts returns no accounts; otherwise it returns the signer
address, falling back to the first requested account when the signer lookup
fails; provider errors with code 4001 map to the rejection message, code
-32002 to the pending message, and any other error is rethrown. -/
theorem connectWallet_error_mapping (env : AuthEnv) :
    (env.hasEthereum = false → connectWallet env = .error noWalletMsg) ∧
    (∀ e, env.hasEthereum = true → env.requestAccounts = .error e →
      e.code = some 4001 →
      connectWallet env = .error rejectedConnectionMsg) ∧
    (∀ e, env.hasEthereum = true → env.requestAccounts = .error e →
      e.code = some (-32002) →
      connectWallet env = .error pendingConnectionMsg) ∧
    (∀ e, env.hasEthereum = true → env.requestAccounts = .error e →
      e.code ≠ some 4001 → e.code ≠ some (-32002) →
      connectWallet env = .error e.message) ∧
    (env.hasEthereum = true → env.requestAccounts = .ok [] →
      connectWallet env = .error noAccountsMsg) ∧
    (∀ accounts address, env.hasEthereum = true →
      env.requestAccounts = .ok accounts → accounts.length ≠ 0 →
      env.ethAccountsRefresh = .ok () →
      env.signerGetAddress = .ok address → address ≠ "" →
      connectWallet env = .ok address) ∧
    (∀ a0 rest m, env.hasEthereum = true →
      env.requestAccounts = .ok (a0 :: rest) → a0 ≠ "" →
      env.ethAccountsRefresh = .ok () →
      env.signerGetAddress = .error m →
      connectWallet env = .ok a0) := by
  refine ⟨?_, ?_, ?_, ?_, ?_, ?_, ?_⟩
  · intro h
    simp [connectWallet, h]
  · intro e hw ha hc
    simp [connectWallet, mapConnectError, hw, ha, hc]
  · intro e hw ha hc
    simp [connectWallet, mapConnectError, hw, ha, hc]
  · intro e hw ha hc1 hc2
    simp [connectWallet, mapConnectError, hw, ha, hc1, hc2]
  · intro hw ha
    simp [connectWallet, hw, ha]
  · intro accounts address hw ha hlen hr hs hne
    simp [connectWallet, hw, ha, hlen, hr, hs, hne]
  · intro a0 rest m hw ha h0 hr hs
    simp [connectWallet, fallbackAddress, hw, ha, hr, hs, h0]

/-- Witness for C7: the happy environment connects and returns 0xE. -/
theorem connectWallet_error_mapping_witness :
    connectWallet envHappy = .ok "0xE" :=
  (connectWallet_error_mapping envHappy).2.2.2.2.2.1 ["0xE"] "0xE"
    rfl rfl (by decide) rfl rfl (by decide)

/-- Counterexample for C8: a request for /employer that carries an
auth-token cookie with the empty-string value and user-role employee is
redirected to /auth, not to the other dashboard /employee: the middleware
tests cookie truthiness, so an empty-valued cookie counts as absent. -/
theorem middleware_empty_cookie_cex :
    middleware "/employer" (some "") (some "employee") = .redirect "/auth" ∧
    MwResult.redirect "/auth" ≠ MwResult.redirect "/employee" := by
  decide

/-- Claim C8 (amended): the middleware redirects a dashboard request
without a truthy auth-token cookie (absent or empty-valued) to /auth; a
dashboard request with a truthy auth-token whose user-role does not equal
the dashboard role is redirected to the other dashboard; /auth and / with
truthy auth-token and user-role cookies redirect to /employer when
user-role is employer and to /employee otherwise; every other request
passes through. -/
theorem middleware_routing (path : String) (authToken userRole : Option String) :
    (protectedRoutes.any (fun route => strStartsWith path route) = true →
      cookieTruthy authToken = false →
      middleware path authToken userRole = .redirect "/auth") ∧
    (strStartsWith path "/employer" = true →
      cookieTruthy authToken = true → userRole ≠ some "employer" →
      middleware path authToken userRole = .redirect "/employee") ∧
    (strStartsWith path "/employee" = true →
      cookieTruthy authToken = true → userRole ≠ some "employee" →
      middleware path authToken userRole = .redirect "/employer") ∧
    ((path = "/auth" ∨ path = "/") →
      cookieTruthy authToken = true → cookieTruthy userRole = true →
      middleware path authToken userRole =
        .redirect (if userRole = some "employer" then "/employer"
          else "/employee")) ∧
    (strStartsWith path "/employer" = true →
      cookieTruthy authToken = true → userRole = some "employer" →
      middleware path authToken userRole = .next) ∧
    (strStartsWith path "/employee" = true →
      cookieTruthy authToken = true → userRole = some "employee" →
      middleware path authToken userRole = .next) ∧
    (protectedRoutes.any (fun route => strStartsWith path route) = false →
      (authRoutes.contains path && cookieTruthy authToken &&
        cookieTruthy userRole) = false →
      middleware path authToken userRole = .next) := by
  refine ⟨?_, ?_, ?_, ?_, ?_, ?_, ?_⟩
  · intro hp ht
    simp [middleware, hp, ht]
  · intro hp ht hr
    have hany : protectedRoutes.any (fun route => strStartsWith path route)
        = true := by
      simp [protectedRoutes, hp]
    simp [middleware, hany, hp, ht, hr]
  · intro hp ht hr
    have hp2 : strStartsWith path "/employer" = false :=
      startsWithEmployeeNotEmployer path hp
    have hany : protectedRoutes.any (fun route => strStartsWith path route)
        = true := by
      simp [protectedRoutes, hp]
    simp [middleware, hany, hp, hp2, ht, hr]
  · intro hpath ht hr
    have hany : protectedRoutes.any (fun route => strStartsWith path route)
        = false := by
      rcases hpath with h | h <;> subst h <;> decide
    have hmem : path ∈ authRoutes := by
      rcases hpath with h | h <;> subst h <;> decide
    simp [middleware, hany, hmem, ht, hr]
  · intro hp ht hr
    have hp2 : strStartsWith path "/employee" = false :=
      startsWithEmployerNotEmployee path hp
    have hany : protectedRoutes.any (fun route => strStartsWith path route)
        = true := by
      simp [protectedRoutes, hp]
    have hne1 : path ≠ "/auth" := fun he => by
      rw [he] at hp; exact absurd hp (by decide)
    have hne2 : path ≠ "/" := fun he => by
      rw [he] at hp; exact absurd hp (by decide)
    have hcon : path ∉ authRoutes := by
      simp [authRoutes, hne1, hne2]
    simp [middleware, hany, hp, hp2, ht, hr, hcon]
  · intro hp ht hr
    have hp2 : strStartsWith path "/employer" = false :=
      startsWithEmployeeNotEmployer path hp
    have hany : protectedRoutes.any (fun route => strStartsWith path route)
        = true := by
      simp [protectedRoutes, hp]
    have hne1 : path ≠ "/auth" := fun he => by
      rw [he] at hp; exact absurd hp (by decide)
    have hne2 : path ≠ "/" := fun he => by
      rw [he] at hp; exact absurd hp (by decide)
    have hcon : path ∉ authRoutes := by
      simp [authRoutes, hne1, hne2]
    simp [middleware, hany, hp, hp2, ht, hr, hcon]
  · intro hany hfall
    simp [middleware, hany, hfall]
    intro hmem htr
    have hc : authRoutes.contains path = true := by
      simp [List.contains, hmem]
    rw [hc, htr] at hfall
    simpa using hfall

/-- Witness for C8: an unauthenticated request for /employer/dashboard is
redirected to /auth. -/
theorem middleware_routing_witness :
    middleware "/employer/dashboard" none none = .redirect "/auth" :=
  (middleware_routing "/employer/dashboard" none none).1 (by decide) rfl

/-- Claim C10: registerAsEmployee throws, leaving the stores untouched,
when the employer address is not well formed (the normalizer rejects it),
and likewise whenever the connected wallet address equals the employer
address up to letter case — the normalizer only changes the case of a valid
address, which the second hypothesis records. -/
theorem registerAsEmployee_rejects_self_and_invalid (env : AuthEnv)
    (db : DB) (employerAddress : String) (skip : Bool) (now : Nat) :
    (env.getAddress employerAddress = none →
      registerAsEmployee env db employerAddress skip now =
        (.error invalidEmployerAddressMsg, db)) ∧
    (∀ norm w, env.getAddress employerAddress = some norm →
      strToLower norm = strToLower employerAddress →
      env.signerGetAddress = .ok w →
      strToLower w = strToLower employerAddress →
      isErr (registerAsEmployee env db employerAddress skip now).1 = true ∧
      (registerAsEmployee env db employerAddress skip now).2 = db) := by
  constructor
  · intro h
    simp [registerAsEmployee, h]
  · intro norm w hn hcase hs hw
    have hlow : strToLower w = strToLower norm := by rw [hw, hcase]
    cases hconn : ensureSigner env with
    | error e =>
      simp [registerAsEmployee, hn, hconn, isErr]
    | ok u =>
      cases hv : (checkNetwork env.hasEthereum env.chainIdRes).valid with
      | false =>
        simp [registerAsEmployee, hn, hconn, hv, isErr]
      | true =>
        have hbeq : (strToLower w == strToLower norm) = true := by
          simp [hlow]
        simp [registerAsEmployee, hn, hconn, hv, hs, hbeq, isErr]

/-- Witness for C10: wallet 0xab registering under employer 0xAB (its own
address up to case) fails and leaves the empty database unchanged. -/
theorem registerAsEmployee_rejects_self_and_invalid_witness :
    isErr (registerAsEmployee envSelf ⟨[], []⟩ "0xAB" false 7).1 = true ∧
    (registerAsEmployee envSelf ⟨[], []⟩ "0xAB" false 7).2 = ⟨[], []⟩ :=
  (registerAsEmployee_rejects_self_and_invalid envSelf ⟨[], []⟩ "0xAB"
    false 7).2 "0xab" "0xab" rfl (by decide) rfl (by decide)

end StablePay
